import Mathlib

/-!
# Verification of the chr4/migrate migration engine

Shallow embedding of the repository's Go sources:

* `src/driver/postgres/postgres.go` — the postgres backend `Driver`
  (`Driver.Migrate`, `Driver.Version`);
* `src/migrate/migrate.go` — the orchestrator (`Up`, `Down`, `Migrate`,
  `Redo`, `Reset`, `initDriverAndReadMigrationFilesAndGetVersion`,
  `Graceful` / `NonGraceful` / `handleInterrupts`).

The `file` package (the sequencer `ToLastFrom` / `ToFirstFrom` / `From` and
the helpers `LineColumnFromOffset` / `LinesBeforeAndAfter`) is not part of
the sources; those definitions are modelled from the spec and are marked as
such in their doc comments.

The database is modelled as the `schema_migrations` marker table (a list of
versions) together with an abstract log of committed script bodies.  A
transaction is a local copy of that state: the driver's `Migrate` works on
the copy and the copy becomes the new database exactly when `tx.Commit()`
runs.  Failures of the backend (a failing marker `INSERT`/`DELETE`, a
failing script `Exec`, a failing `tx.Rollback()`) are supplied through a
`Behavior` oracle so that every error path of the Go code is reachable in
the model.  Go panics (the unchecked `err.(*pq.Error)` type assertion, the
deferred `Close` on a nil driver) are modelled as an explicit `Res.panics`
outcome.
-/

set_option autoImplicit false

namespace Migrate

/-- Migration direction, `migrate/direction`: `Up` or `Down`. -/
inductive Direction where
  | up
  | down
deriving DecidableEq, Repr

/-- An error produced by the database backend for one `Exec` call.  The
postgres driver receives either a `*pq.Error` (with severity, code, message
and a textual byte position) or some other `error` value; the distinction
matters because `Driver.Migrate` performs an unchecked type assertion
`err.(*pq.Error)`. -/
inductive SqlError where
  | pq (severity code message position : String)
  | generic (message : String)
deriving DecidableEq, Repr

/-- One migration file (`file.File`): version, name, direction and the
script body.  `readErr` models whether `f.ReadContent()` — which loads the
body from disk — fails; `content` is the on-disk body used once the read
succeeds. -/
structure File where
  version : Nat
  name : String
  direction : Direction
  content : String
  readErr : Option String
deriving DecidableEq, Repr

/-- Backend behaviour oracle for one `Driver.Migrate` call: whether the
marker `INSERT`/`DELETE` fails (and with what error), whether the script
`Exec` fails (and with what error), and whether `tx.Rollback()` itself
fails.  The Go source discards the value returned by `tx.Rollback()`. -/
structure Behavior where
  markerFail : Option SqlError
  execResult : Option SqlError
  rollbackFail : Option String
deriving DecidableEq, Repr

/-- Database state: the rows of the `schema_migrations` table and the log
of committed script bodies (the schema effects). -/
structure DB where
  markers : List Nat
  schema : List String
deriving DecidableEq, Repr

/-- Model of `Driver.Version`: `SELECT version FROM schema_migrations ORDER BY
version DESC LIMIT 1`, with `sql.ErrNoRows` mapped to `0`. -/
def DB.version (db : DB) : Nat :=
  db.markers.foldr Nat.max 0

/-- Errors returned (as Go `error` values) by the modelled functions. -/
inductive GoError where
  | conn (message : String)
  | sql (e : SqlError)
  | readContent (message : String)
  | decoded (message : String)
deriving DecidableEq, Repr

/-- Result of a modelled Go function call: normal return with `nil` error,
normal return with an error, or a runtime panic. -/
inductive Res where
  | ok
  | err (e : GoError)
  | panics (message : String)
deriving DecidableEq, Repr

/-- Operations issued on the driver's transaction, in order. -/
inductive TxEvent where
  | begin
  | markerInsert (version : Nat)
  | markerDelete (version : Nat)
  | execScript
  | commit
  | rollback
deriving DecidableEq, Repr

/-- Digit-string accumulator used by the `strconv.Atoi` model. -/
def digitsAux : List Char → Nat → Option Nat
  | [], acc => some acc
  | c :: rest, acc =>
      if c.isDigit then digitsAux rest (acc * 10 + (c.toNat - 48)) else none

/-- Value of a non-empty all-digit character list, `none` otherwise. -/
def digitsVal? (cs : List Char) : Option Nat :=
  match cs with
  | [] => none
  | _ => digitsAux cs 0

/-- Model of Go `strconv.Atoi`: optional sign followed by digits; `none`
models a non-nil conversion error. -/
def atoi? (s : String) : Option Int :=
  match s.data with
  | '-' :: rest => (digitsVal? rest).map (fun n => -(n : Int))
  | '+' :: rest => (digitsVal? rest).map (fun n => (n : Int))
  | cs => (digitsVal? cs).map (fun n => (n : Int))

/-- Character counter behind `LineColumnFromOffset`: walks `budget`
characters of the text, starting at line 1 and column 1 and advancing the
line at each newline. -/
def lineColAux : List Char → Nat → Nat → Nat → Nat × Nat
  | _, 0, line, col => (line, col)
  | [], _ + 1, line, col => (line, col)
  | c :: rest, budget + 1, line, col =>
      if c = '\n' then lineColAux rest budget (line + 1) 1
      else lineColAux rest budget line (col + 1)

/-- Modelled from the spec: `file.LineColumnFromOffset` is not under the
sources.  The spec says the adapter "converts that offset into a 1-based
line number and column by counting characters"; a negative offset counts no
characters and the count stops at the end of the text. -/
def LineColumnFromOffset (content : String) (offset : Int) : Nat × Nat :=
  lineColAux content.data offset.toNat 1 1

/-- Splits a character list into its lines at each newline (the text's
lines, with separators removed; the empty text has one empty line). -/
def splitLines : List Char → List (List Char)
  | [] => [[]]
  | c :: rest =>
      if c = '\n' then [] :: splitLines rest
      else
        match splitLines rest with
        | [] => [[c]]
        | l :: ls => (c :: l) :: ls

/-- Modelled from the spec: `file.LinesBeforeAndAfter` is not under the
sources.  The spec says the adapter "extracts a context window of a fixed
number of lines before and after the failing line (default 5 and 5) from
the original script text". -/
def LinesBeforeAndAfter (content : String) (lineNo before after : Nat) : String :=
  let lines := (splitLines content.data).map String.mk
  String.intercalate "\n" ((lines.drop (lineNo - 1 - before)).take (before + after + 1))

/-- The plain fallback message,
`fmt.Sprintf("%s %v: %s", pqErr.Severity, pqErr.Code, pqErr.Message)`. -/
def plainMessage (severity code message : String) : String :=
  severity ++ " " ++ code ++ ": " ++ message

/-- The positional message, `fmt.Sprintf("%s %v: %s in line %v, column
%v:\n\n%s", ...)`. -/
def positionalMessage (severity code message : String) (line col : Nat)
    (errorPart : String) : String :=
  severity ++ " " ++ code ++ ": " ++ message ++ " in line " ++ toString line
    ++ ", column " ++ toString col ++ ":\n\n" ++ errorPart

/-- The error-decoding branch of `Driver.Migrate` for a `*pq.Error`:
`offset, err = strconv.Atoi(pqErr.Position); if err == nil && offset >= 0`
take the positional branch with `offset-1`, else fall back to the plain
message. -/
def decodePq (severity code message position content : String) : String :=
  match atoi? position with
  | some offset =>
      if 0 ≤ offset then
        let lc := LineColumnFromOffset content (offset - 1)
        positionalMessage severity code message lc.1 lc.2
          (LinesBeforeAndAfter content lc.1 5 5)
      else plainMessage severity code message
  | none => plainMessage severity code message

/-- The transaction event recording the marker update for a direction. -/
def markerEvent : Direction → Nat → TxEvent
  | .up, v => .markerInsert v
  | .down, v => .markerDelete v

/-- Effect of the marker update on the transaction-local state:
`INSERT INTO schema_migrations (version) VALUES ($1)` for `Up`,
`DELETE FROM schema_migrations WHERE version=$1` for `Down`. -/
def txMarker : Direction → Nat → DB → DB
  | .up, v, db => { db with markers := db.markers ++ [v] }
  | .down, v, db => { db with markers := db.markers.filter (fun w => w ≠ v) }

/-- Model of `tx.Rollback()`: returns the rollback error, which every call site in
the Go source discards. -/
def txRollback (beh : Behavior) : Option String :=
  beh.rollbackFail

/-- Panic message of a failed Go interface type assertion. -/
def typeAssertionPanic : String :=
  "interface conversion: error is not *pq.Error"

/-- Result of one `Driver.Migrate` call: the returned error (or panic), the
database visible after the call, and the operations issued on the
transaction. -/
structure MigrateOut where
  res : Res
  db : DB
  trace : List TxEvent
deriving DecidableEq, Repr

/-- Model of `Driver.Migrate` of the postgres driver, line by line:
begin a transaction; run the marker `INSERT` (Up) or `DELETE` (Down) and on
failure roll back and return the raw error; run `f.ReadContent()` and on
failure return (neither commit nor rollback is issued on this path); run
the script body and on failure decode the error through the unchecked
`err.(*pq.Error)` assertion (a non-pq error panics), roll back discarding
the rollback error, and return the decoded error; otherwise commit. -/
def Driver.Migrate (beh : Behavior) (f : File) (db : DB) : MigrateOut :=
  match beh.markerFail with
  | some e =>
      let _ := txRollback beh
      { res := .err (.sql e), db := db
        trace := [.begin, markerEvent f.direction f.version, .rollback] }
  | none =>
      let tx := txMarker f.direction f.version db
      match f.readErr with
      | some m =>
          { res := .err (.readContent m), db := db
            trace := [.begin, markerEvent f.direction f.version] }
      | none =>
          match beh.execResult with
          | none =>
              { res := .ok, db := { tx with schema := tx.schema ++ [f.content] }
                trace := [.begin, markerEvent f.direction f.version,
                          .execScript, .commit] }
          | some (.generic _) =>
              { res := .panics typeAssertionPanic, db := db
                trace := [.begin, markerEvent f.direction f.version,
                          .execScript] }
          | some (.pq severity code message position) =>
              let msg := decodePq severity code message position f.content
              let _ := txRollback beh
              { res := .err (.decoded msg), db := db
                trace := [.begin, markerEvent f.direction f.version,
                          .execScript, .rollback] }

/-- Modelled from the spec: `file.ToLastFrom` is not under the sources.
"`ToLatest(currentVersion)`: all Up records with version strictly greater
than `currentVersion`, ascending" — the collection is already ascending by
version, so filtering preserves that order. -/
def ToLastFrom (files : List File) (version : Nat) : List File :=
  files.filter (fun f => f.direction = Direction.up ∧ version < f.version)

/-- Modelled from the spec: `file.ToFirstFrom` is not under the sources.
"`ToZero(currentVersion)`: all Down records with version less than or equal
to `currentVersion`, in descending version order (most recent first)". -/
def ToFirstFrom (files : List File) (version : Nat) : List File :=
  (files.filter (fun f => f.direction = Direction.down ∧ f.version ≤ version)).reverse

/-- Modelled from the spec: `file.From` is not under the sources.
"`ByRelativeCount(currentVersion, n)`": the next `n` Up records ascending
for `n > 0`, the last `|n|` Down records descending for `n < 0`, the empty
sequence for `n = 0`; fewer available than requested is not an error. -/
def FilesFrom (files : List File) (version : Nat) (relativeN : Int) : List File :=
  if 0 < relativeN then (ToLastFrom files version).take relativeN.toNat
  else if relativeN < 0 then (ToFirstFrom files version).take (-relativeN).toNat
  else []

/-- The whole-process environment of one orchestrator call: the outcome of
`driver.New` for the url, of `file.ReadMigrationFiles` for the migrations
path and of `d.Version()`; the parsed migration collection (ascending by
version); the backend behaviour of each record's `Driver.Migrate`; the
database; the package-level `interrupts` flag (`Graceful`/`NonGraceful`);
and the schedule of external SIGINT arrivals, indexed by how many records
have finished when the signal arrives.  The Go source never consumes the
signal channel, so `signals` is never read by any operation. -/
structure Env where
  newErr : Option String
  readFilesErr : Option String
  versionErr : Option String
  files : List File
  beh : File → Behavior
  db : DB
  interrupts : Bool
  signals : List Nat

/-- Result of `initDriverAndReadMigrationFilesAndGetVersion`: the error (if
any — the returned driver is nil exactly when it is set), the migration
collection, the current version, and whether the helper itself already
called `d.Close()` (it does when reading the files or the version fails). -/
structure InitOut where
  res : Option GoError
  files : List File
  version : Nat
  closedInInit : Bool
deriving Repr

/-- Model of `initDriverAndReadMigrationFilesAndGetVersion`: `driver.New(url)`, then
`file.ReadMigrationFiles(...)`, then `d.Version()`; on failure of the last
two the driver is closed and in every failure case the returned driver is
nil. -/
def initDriverAndReadMigrationFilesAndGetVersion (env : Env) : InitOut :=
  match env.newErr with
  | some m => { res := some (.conn m), files := [], version := 0, closedInInit := false }
  | none =>
      match env.readFilesErr with
      | some m => { res := some (.conn m), files := [], version := 0, closedInInit := true }
      | none =>
          match env.versionErr with
          | some m => { res := some (.conn m), files := [], version := 0, closedInInit := true }
          | none =>
              { res := none, files := env.files, version := env.db.version
                closedInInit := false }

/-- Panic message of a Go nil-pointer dereference, raised when the deferred
`d.Close()` runs (or is set up) on the nil driver returned by a failed
`initDriverAndReadMigrationFilesAndGetVersion`. -/
def nilPointerPanic : String :=
  "runtime error: invalid memory address or nil pointer dereference"

/-- Result of one application loop: the first error (or panic, or `ok`),
the database afterwards, and the records whose `Driver.Migrate` returned
`nil` before the loop stopped. -/
structure RunOut where
  res : Res
  db : DB
  applied : List File
deriving DecidableEq, Repr

/-- The `for _, f := range applyMigrationFiles { err = d.Migrate(f); ... }`
loop shared by `Up`, `Down` and `Migrate`: apply each record in order and
stop at the first call that does not return `nil` (a panic propagates). -/
def runFiles (beh : File → Behavior) : List File → DB → RunOut
  | [], db => { res := .ok, db := db, applied := [] }
  | f :: rest, db =>
      let out := Driver.Migrate (beh f) f db
      match out.res with
      | .ok =>
          let r := runFiles beh rest out.db
          { res := r.res, db := r.db, applied := f :: r.applied }
      | .err e => { res := .err e, db := out.db, applied := [] }
      | .panics m => { res := .panics m, db := out.db, applied := [] }

/-- Result of one top-level orchestrator operation: outcome, database
afterwards, records applied successfully, and whether the driver was
closed. -/
structure OpOut where
  res : Res
  db : DB
  applied : List File
  closed : Bool
deriving DecidableEq, Repr

/-- Model of `migrate.Up`: init (with `defer d.Close()` registered on the returned
driver before the error check — a nil driver makes the deferred call panic
with a nil-pointer dereference), then `files.ToLastFrom(version)`, then the
application loop, returning on the first failure.  The deferred `Close`
runs on every non-panicking exit once init succeeded. -/
def Up (env : Env) : OpOut :=
  let init := initDriverAndReadMigrationFilesAndGetVersion env
  match init.res with
  | some _ =>
      { res := .panics nilPointerPanic, db := env.db, applied := []
        closed := init.closedInInit }
  | none =>
      let apply := ToLastFrom init.files init.version
      let r := runFiles env.beh apply env.db
      { res := r.res, db := r.db, applied := r.applied, closed := true }

/-- Model of `migrate.Down`: init without any `defer d.Close()` (an init failure is
returned as the error), then `files.ToFirstFrom(version)`, then the
application loop with `break` on the first failure; the driver is never
closed by `Down` itself. -/
def Down (env : Env) : OpOut :=
  let init := initDriverAndReadMigrationFilesAndGetVersion env
  match init.res with
  | some e =>
      { res := .err e, db := env.db, applied := [], closed := init.closedInInit }
  | none =>
      let apply := ToFirstFrom init.files init.version
      let r := runFiles env.beh apply env.db
      { res := r.res, db := r.db, applied := r.applied, closed := false }

/-- Model of `migrate.Migrate` (move by `relativeN`): init with the same premature
`defer d.Close()` as `Up`, then `files.From(version, relativeN)`, then —
only when the list is non-empty and `relativeN != 0` — the application
loop. -/
def MigrateRel (env : Env) (relativeN : Int) : OpOut :=
  let init := initDriverAndReadMigrationFilesAndGetVersion env
  match init.res with
  | some _ =>
      { res := .panics nilPointerPanic, db := env.db, applied := []
        closed := init.closedInInit }
  | none =>
      let apply := FilesFrom init.files init.version relativeN
      if 0 < apply.length ∧ relativeN ≠ 0 then
        let r := runFiles env.beh apply env.db
        { res := r.res, db := r.db, applied := r.applied, closed := true }
      else { res := .ok, db := env.db, applied := [], closed := true }

/-- Model of `migrate.Redo`: `Migrate(url, path, -1)`; if that returned an error (or
panicked) stop there, otherwise `Migrate(url, path, +1)` against the state
the first call left behind.  `applied` accumulates both calls. -/
def Redo (env : Env) : OpOut :=
  let first := MigrateRel env (-1)
  match first.res with
  | .ok =>
      let second := MigrateRel { env with db := first.db } 1
      { res := second.res, db := second.db
        applied := first.applied ++ second.applied, closed := second.closed }
  | _ => first

/-- Model of `migrate.Reset`: `Down` then, if it succeeded, `Up` against the state
`Down` left behind. -/
def Reset (env : Env) : OpOut :=
  let first := Down env
  match first.res with
  | .ok =>
      let second := Up { env with db := first.db }
      { res := second.res, db := second.db
        applied := first.applied ++ second.applied, closed := second.closed }
  | _ => first

/-- Model of `migrate.handleInterrupts`: returns a signal channel when the
package-level `interrupts` flag is set (`Graceful`), nil otherwise
(`NonGraceful`).  No function of the package ever calls it. -/
def handleInterrupts (interrupts : Bool) : Option Unit :=
  if interrupts then some () else none

/-- Database state after committing a list of records in order (the effect
`Driver.Migrate` leaves when each call succeeds, and the identity on the
state for calls that fail). -/
def commitFold (beh : File → Behavior) (fs : List File) (db : DB) : DB :=
  fs.foldl (fun d g => (Driver.Migrate (beh g) g d).db) db

/-! ## Concrete inputs used by witnesses and counterexamples -/

/-- A backend behaviour in which every operation succeeds. -/
def behNone : Behavior :=
  { markerFail := none, execResult := none, rollbackFail := none }

/-- A backend behaviour whose script `Exec` fails with a pq error carrying
an out-of-range position (`100`) for a three-character script. -/
def behPqFar : Behavior :=
  { markerFail := none
    execResult := some (SqlError.pq "ERROR" "42601" "syntax" "100")
    rollbackFail := none }

/-- A three-character Up script. -/
def fileFoo : File :=
  { version := 1, name := "foobar", direction := .up, content := "foo", readErr := none }

/-- The empty database: no migration applied, `CurrentVersion = 0`. -/
def dbEmpty : DB :=
  { markers := [], schema := [] }

/-! ## C2 — marker update precedes the script body, in one transaction -/

/-- C2: on every `Driver.Migrate` call the transaction trace starts with
`Begin` immediately followed by the marker update — an `INSERT` of the
record's version for direction Up, a `DELETE` for Down — so the marker
update precedes any script execution, and no second transaction is begun
during the call. -/
theorem migrate_updates_marker_first (beh : Behavior) (f : File) (db : DB) :
    ∃ rest,
      (Driver.Migrate beh f db).trace
          = TxEvent.begin :: markerEvent f.direction f.version :: rest ∧
        TxEvent.begin ∉ rest ∧
        (f.direction = Direction.up →
          markerEvent f.direction f.version = TxEvent.markerInsert f.version) ∧
        (f.direction = Direction.down →
          markerEvent f.direction f.version = TxEvent.markerDelete f.version) := by
  obtain ⟨mf, er, rb⟩ := beh
  obtain ⟨v, nm, dir, c, re⟩ := f
  cases mf <;> cases re <;> rcases er with _ | (⟨s, c2, m, p⟩ | ⟨m⟩) <;>
    exact ⟨_, rfl, by decide, fun h => by subst h; rfl, fun h => by subst h; rfl⟩

/-! ## C9 — unchecked `err.(*pq.Error)` type assertion -/

/-- C9: when the script execution fails with an error that is not a
`*pq.Error`, the error-decoding code of `Driver.Migrate` panics on the
unchecked type assertion instead of returning a plain message. -/
theorem migrate_panics_on_non_pq_error (beh : Behavior) (f : File) (db : DB)
    (m : String) (h1 : beh.markerFail = none) (h2 : f.readErr = none)
    (h3 : beh.execResult = some (SqlError.generic m)) :
    (Driver.Migrate beh f db).res = Res.panics typeAssertionPanic := by
  simp [Driver.Migrate, h1, h2, h3]

/-- C9 witness: a concrete non-pq execution error makes `Driver.Migrate`
panic. -/
theorem migrate_panics_on_non_pq_error_witness :
    (Driver.Migrate
        { markerFail := none, execResult := some (SqlError.generic "driver: bad connection")
          rollbackFail := none }
        fileFoo dbEmpty).res = Res.panics typeAssertionPanic :=
  migrate_panics_on_non_pq_error _ fileFoo dbEmpty "driver: bad connection" rfl rfl rfl

/-! ## C6 — rollback failures are discarded -/

/-- C6 counterexample: at a concrete failed script execution whose
`tx.Rollback()` itself fails, `Driver.Migrate` returns exactly the same
result, database and trace as when the rollback succeeds, and that result
carries only the decoded execution error — so the rollback failure is not
observable to the caller. -/
theorem rollback_failure_silently_discarded :
    Driver.Migrate
        { markerFail := none
          execResult := some (SqlError.pq "ERROR" "40001" "deadlock detected" "1")
          rollbackFail := some "rollback failed: connection lost" }
        { version := 1, name := "a", direction := .up, content := "X", readErr := none }
        { markers := [], schema := [] }
      = Driver.Migrate
        { markerFail := none
          execResult := some (SqlError.pq "ERROR" "40001" "deadlock detected" "1")
          rollbackFail := none }
        { version := 1, name := "a", direction := .up, content := "X", readErr := none }
        { markers := [], schema := [] } ∧
    ∃ m,
      (Driver.Migrate
          { markerFail := none
            execResult := some (SqlError.pq "ERROR" "40001" "deadlock detected" "1")
            rollbackFail := some "rollback failed: connection lost" }
          { version := 1, name := "a", direction := .up, content := "X", readErr := none }
          { markers := [], schema := [] }).res = Res.err (GoError.decoded m) :=
  ⟨rfl, _, rfl⟩

/-- C6 amended: `Driver.Migrate` discards the value returned by every
`tx.Rollback()` call, so its outcome is entirely independent of whether the
rollback failed; only the primary error is surfaced. -/
theorem rollback_failure_unobservable (beh : Behavior) (f : File) (db : DB)
    (rb : Option String) :
    Driver.Migrate { beh with rollbackFail := rb } f db = Driver.Migrate beh f db := by
  obtain ⟨mf, er, rbf⟩ := beh
  obtain ⟨v, nm, dir, c, re⟩ := f
  cases mf <;> cases re <;> rcases er with _ | (⟨s, c2, m, p⟩ | ⟨m⟩) <;> rfl

/-! ## C4 — decoding of positional execution errors -/

/-- C4 counterexample: for a three-character script failing with position
`"100"` — an offset far out of range — `Driver.Migrate` does not fall back
to the plain `severity/code/message` string: it takes the positional branch
and reports line 1, column 4. -/
theorem out_of_range_offset_takes_positional_branch :
    (Driver.Migrate behPqFar fileFoo dbEmpty).res
        = Res.err (GoError.decoded (positionalMessage "ERROR" "42601" "syntax" 1 4 "foo")) ∧
      positionalMessage "ERROR" "42601" "syntax" 1 4 "foo"
        ≠ plainMessage "ERROR" "42601" "syntax" :=
  ⟨by decide, by decide⟩

/-- C4 amended: on a failed script execution carrying a pq error, the
decoded error is the plain `severity/code/message` string exactly when the
position fails to parse as an integer or parses to a negative one; whenever
the position parses to a nonnegative integer — with no out-of-range check —
the decoded error reports the 1-based line and column computed from the
offset and a context window of 5 lines before and 5 lines after the failing
line. -/
theorem migrate_decodes_exec_error (beh : Behavior) (f : File) (db : DB)
    (s c m p : String) (h1 : beh.markerFail = none) (h2 : f.readErr = none)
    (h3 : beh.execResult = some (SqlError.pq s c m p)) :
    ((atoi? p = none ∨ ∃ k, atoi? p = some k ∧ k < 0) →
        (Driver.Migrate beh f db).res = Res.err (GoError.decoded (plainMessage s c m))) ∧
      (∀ k, atoi? p = some k → 0 ≤ k →
        (Driver.Migrate beh f db).res
            = Res.err (GoError.decoded (positionalMessage s c m
                (LineColumnFromOffset f.content (k - 1)).1
                (LineColumnFromOffset f.content (k - 1)).2
                (LinesBeforeAndAfter f.content
                  (LineColumnFromOffset f.content (k - 1)).1 5 5)))) := by
  have hM : (Driver.Migrate beh f db).res
      = Res.err (GoError.decoded (decodePq s c m p f.content)) := by
    simp [Driver.Migrate, h1, h2, h3]
  constructor
  · rintro (ha | ⟨k, hk, hneg⟩)
    · rw [hM]
      simp [decodePq, ha]
    · rw [hM]
      simp only [decodePq, hk]
      rw [if_neg (by omega)]
  · intro k hk hpos
    rw [hM]
    simp only [decodePq, hk]
    rw [if_pos hpos]

/-- C4 witness: a concrete unparseable position (`""`) produces the plain
fallback message, via `migrate_decodes_exec_error`. -/
theorem migrate_decodes_exec_error_witness :
    (Driver.Migrate
        { markerFail := none
          execResult := some (SqlError.pq "ERROR" "42601" "syntax" "")
          rollbackFail := none }
        fileFoo dbEmpty).res
      = Res.err (GoError.decoded (plainMessage "ERROR" "42601" "syntax")) :=
  (migrate_decodes_exec_error _ fileFoo dbEmpty "ERROR" "42601" "syntax" ""
      rfl rfl rfl).1 (Or.inl rfl)

/-! ## C8 — the `ReadContent` failure path leaves the transaction open -/

/-- C8: at a concrete record whose `f.ReadContent()` fails after the marker
`INSERT` succeeded, `Driver.Migrate` returns the read error with a
transaction trace that contains `Begin` but neither `Commit` nor `Rollback`
— the transaction is still open on this exit path. -/
theorem read_failure_leaves_transaction_open :
    (Driver.Migrate behNone
          { version := 1, name := "a", direction := .up, content := ""
            readErr := some "open /foobar/001_foobar.up.sql: no such file or directory" }
          dbEmpty).trace
        = [TxEvent.begin, TxEvent.markerInsert 1] ∧
      (Driver.Migrate behNone
          { version := 1, name := "a", direction := .up, content := ""
            readErr := some "open /foobar/001_foobar.up.sql: no such file or directory" }
          dbEmpty).res
        = Res.err (GoError.readContent
            "open /foobar/001_foobar.up.sql: no such file or directory") ∧
      TxEvent.commit ∉ [TxEvent.begin, TxEvent.markerInsert 1] ∧
      TxEvent.rollback ∉ [TxEvent.begin, TxEvent.markerInsert 1] :=
  ⟨rfl, rfl, by decide, by decide⟩

/-! ## C5 — interrupt signals are never observed -/

/-- Two pending Up records used by the interruption scenario. -/
def fileSig1 : File :=
  { version := 1, name := "one", direction := .up, content := "CREATE TABLE a;", readErr := none }

/-- Second pending Up record of the interruption scenario. -/
def fileSig2 : File :=
  { version := 2, name := "two", direction := .up, content := "CREATE TABLE b;", readErr := none }

/-- Graceful-mode environment with a SIGINT already pending before the
first record starts. -/
def envSig : Env :=
  { newErr := none, readFilesErr := none, versionErr := none
    files := [fileSig1, fileSig2], beh := fun _ => behNone
    db := dbEmpty, interrupts := true, signals := [0] }

/-- C5: `handleInterrupts` does hand out a signal channel in Graceful mode,
but no operation consumes it: `Up` on an environment with a SIGINT pending
before the first record applies both pending records, and its outcome is
identical with no signals at all and in NonGraceful mode — signals never
halt the loop, neither after the current record nor immediately. -/
theorem interrupt_signals_never_observed :
    handleInterrupts true = some () ∧
      (Up envSig).applied = [fileSig1, fileSig2] ∧
      (Up envSig).res = Res.ok ∧
      Up envSig = Up { envSig with signals := [] } ∧
      Up envSig = Up { envSig with interrupts := false, signals := [0] } :=
  ⟨rfl, rfl, rfl, rfl, rfl⟩

/-- An environment whose url is not handled by any registered driver:
`driver.New` fails. -/
def envBadUrl : Env :=
  { newErr := some "unknown driver url", readFilesErr := none, versionErr := none
    files := [], beh := fun _ => behNone
    db := dbEmpty, interrupts := true, signals := [] }

/-- The Up record of a well-formed version-1 pair. -/
def filePairUp : File :=
  { version := 1, name := "pair", direction := .up, content := "CREATE TABLE t;", readErr := none }

/-- The Down record of a well-formed version-1 pair. -/
def filePairDown : File :=
  { version := 1, name := "pair", direction := .down, content := "DROP TABLE t;", readErr := none }

/-- A healthy environment in which no migration has ever been applied:
`CurrentVersion = 0`, one Up/Down pair on disk, every backend operation
succeeds. -/
def envFresh : Env :=
  { newErr := none, readFilesErr := none, versionErr := none
    files := [filePairUp, filePairDown], beh := fun _ => behNone
    db := dbEmpty, interrupts := true, signals := [] }

/-- An environment at version 1 whose Down record fails at the marker
`DELETE`. -/
def envDownFails : Env :=
  { newErr := none, readFilesErr := none, versionErr := none
    files := [filePairUp, filePairDown]
    beh := fun f =>
      if f.direction = Direction.down then
        { markerFail := some (SqlError.generic "marker delete refused")
          execResult := none, rollbackFail := none }
      else behNone
    db := { markers := [1], schema := ["CREATE TABLE t;"] }
    interrupts := true, signals := [] }

/-! ## C10 — nil driver: `Up`/`Migrate` panic, `Down` returns the error -/

/-- C10: when `driver.New` fails, `Up` and `Migrate` panic with a
nil-pointer dereference — their `defer d.Close()` is registered on the nil
driver before the error is checked — while `Down`, which has no such defer,
returns the error and never closes the driver. -/
theorem nil_driver_panics_in_up_and_migrate (env : Env) (m : String) (n : Int)
    (h : env.newErr = some m) :
    (Up env).res = Res.panics nilPointerPanic ∧
      (MigrateRel env n).res = Res.panics nilPointerPanic ∧
      (Down env).res = Res.err (GoError.conn m) ∧
      (Down env).closed = false := by
  refine ⟨?_, ?_, ?_, ?_⟩ <;>
    simp [Up, MigrateRel, Down, initDriverAndReadMigrationFilesAndGetVersion, h]

/-- C10 witness: a concrete failing url makes `Up` and `Migrate` panic and
`Down` return the connection error without closing anything. -/
theorem nil_driver_panics_witness :
    (Up envBadUrl).res = Res.panics nilPointerPanic ∧
      (MigrateRel envBadUrl 1).res = Res.panics nilPointerPanic ∧
      (Down envBadUrl).res = Res.err (GoError.conn "unknown driver url") ∧
      (Down envBadUrl).closed = false :=
  nil_driver_panics_in_up_and_migrate envBadUrl "unknown driver url" 1 rfl

/-! ## C7 — `Redo` -/

/-- C7 counterexample: in an environment where no migration has ever been
applied (`CurrentVersion = 0`) and one Up/Down pair exists, the rollback
step `Migrate(-1)` of `Redo` succeeds as an empty no-op, and `Redo` goes on
to run the reapply step, which applies version 1 — `Redo` does not fail at
the rollback step. -/
theorem redo_at_version_zero_reapplies :
    (MigrateRel envFresh (-1)).res = Res.ok ∧
      (MigrateRel envFresh (-1)).applied = [] ∧
      (Redo envFresh).res = Res.ok ∧
      (Redo envFresh).applied = [filePairUp] ∧
      (Redo envFresh).db.markers = [1] :=
  ⟨rfl, rfl, rfl, rfl, rfl⟩

/-- C7 amended: `Redo` is `Migrate(url, path, -1)` followed by
`Migrate(url, path, +1)`, and when the rollback step returns an error the
reapply step is never attempted: `Redo` returns exactly the rollback step's
outcome.  (When no migration has ever been applied the rollback step is an
empty no-op that succeeds, so the reapply step does run.) -/
theorem redo_short_circuits_on_error (env : Env) (e : GoError)
    (h : (MigrateRel env (-1)).res = Res.err e) :
    Redo env = MigrateRel env (-1) := by
  simp only [Redo]
  rw [h]

/-- C7 witness: a concrete failing rollback step makes `Redo` return that
failure with nothing further applied. -/
theorem redo_short_circuits_witness :
    Redo envDownFails = MigrateRel envDownFails (-1) ∧
      (MigrateRel envDownFails (-1)).res
        = Res.err (GoError.sql (SqlError.generic "marker delete refused")) ∧
      (Redo envDownFails).applied = [] :=
  ⟨redo_short_circuits_on_error envDownFails
      (GoError.sql (SqlError.generic "marker delete refused")) rfl,
    rfl, rfl⟩

/-- A database with version 1 applied. -/
def dbAtOne : DB :=
  { markers := [1], schema := ["CREATE TABLE t;"] }

/-! ## C1 — per-record atomicity of `Driver.Migrate` -/

/-- C1: whenever the marker update fails, or the script execution fails
with a pq error, `Driver.Migrate` returns an error, the database — marker
table and schema effects alike — is exactly what it was before the call,
`CurrentVersion` is unchanged, and the transaction trace ends in a
rollback. -/
theorem migrate_rolls_back_on_failure (beh : Behavior) (f : File) (db : DB)
    (h : (∃ e, beh.markerFail = some e) ∨
      (beh.markerFail = none ∧ f.readErr = none ∧
        ∃ s c m p, beh.execResult = some (SqlError.pq s c m p))) :
    (∃ e, (Driver.Migrate beh f db).res = Res.err e) ∧
      (Driver.Migrate beh f db).db = db ∧
      ((Driver.Migrate beh f db).db).version = db.version ∧
      (Driver.Migrate beh f db).trace.getLast? = some TxEvent.rollback := by
  rcases h with ⟨e, he⟩ | ⟨h1, h2, s, c, m, p, h3⟩
  · have hM : Driver.Migrate beh f db
        = { res := .err (.sql e), db := db
            trace := [.begin, markerEvent f.direction f.version, .rollback] } := by
      simp [Driver.Migrate, he]
    rw [hM]
    exact ⟨⟨_, rfl⟩, rfl, rfl, rfl⟩
  · have hM : Driver.Migrate beh f db
        = { res := .err (.decoded (decodePq s c m p f.content)), db := db
            trace := [.begin, markerEvent f.direction f.version,
                      .execScript, .rollback] } := by
      simp [Driver.Migrate, h1, h2, h3]
    rw [hM]
    exact ⟨⟨_, rfl⟩, rfl, rfl, rfl⟩

/-- C1 witness: a concrete failed script execution leaves the version-1
database untouched, with `CurrentVersion` still 1 and a trailing rollback. -/
theorem migrate_rolls_back_witness :
    (∃ e, (Driver.Migrate behPqFar filePairUp dbAtOne).res = Res.err e) ∧
      (Driver.Migrate behPqFar filePairUp dbAtOne).db = dbAtOne ∧
      ((Driver.Migrate behPqFar filePairUp dbAtOne).db).version = dbAtOne.version ∧
      (Driver.Migrate behPqFar filePairUp dbAtOne).trace.getLast? = some TxEvent.rollback :=
  migrate_rolls_back_on_failure behPqFar filePairUp dbAtOne
    (Or.inr ⟨rfl, rfl, "ERROR", "42601", "syntax", "100", rfl⟩)

/-! ## C3 — `Up` stops at the first failure, earlier records stay applied -/

/-- An error result of `Driver.Migrate` leaves the database as it was. -/
theorem migrate_err_db_eq (beh : Behavior) (f : File) (db : DB) (e : GoError)
    (h : (Driver.Migrate beh f db).res = Res.err e) :
    (Driver.Migrate beh f db).db = db := by
  obtain ⟨mf, er, rb⟩ := beh
  obtain ⟨v, nm, dir, c, re⟩ := f
  cases mf <;> cases re <;> rcases er with _ | (⟨s, c2, m, p⟩ | ⟨m⟩) <;>
    simp_all [Driver.Migrate]

/-- Decomposition of an erroring application loop: the input list splits
into the successfully applied prefix, the failing record and the untried
suffix; the resulting database is the committed fold of the prefix; the
failing record errs against that database; and each prefix record's
`Driver.Migrate` succeeded against the state the records before it left. -/
theorem runFiles_err_decomp (beh : File → Behavior) (e : GoError)
    (fs : List File) :
    ∀ (db : DB) (r : RunOut), runFiles beh fs db = r → r.res = Res.err e →
      ∃ g suf,
        fs = r.applied ++ g :: suf ∧
        r.db = commitFold beh r.applied db ∧
        (Driver.Migrate (beh g) g r.db).res = Res.err e ∧
        ∀ i, (hi : i < r.applied.length) →
          (Driver.Migrate (beh (r.applied.get ⟨i, hi⟩)) (r.applied.get ⟨i, hi⟩)
              (commitFold beh (r.applied.take i) db)).res = Res.ok := by
  induction fs with
  | nil =>
      intro db r hr hres
      rw [← hr] at hres
      simp [runFiles] at hres
  | cons f rest ih =>
      intro db r hr hres
      rcases hout : (Driver.Migrate (beh f) f db).res with _ | e' | m
      · have hrw : r =
            { res := (runFiles beh rest (Driver.Migrate (beh f) f db).db).res
              db := (runFiles beh rest (Driver.Migrate (beh f) f db).db).db
              applied := f :: (runFiles beh rest (Driver.Migrate (beh f) f db).db).applied } := by
          rw [← hr]
          simp [runFiles, hout]
        subst hrw
        obtain ⟨g, suf, hsplit, hdb, hfail, hpre⟩ :=
          ih (Driver.Migrate (beh f) f db).db _ rfl hres
        refine ⟨g, suf, ?_, ?_, hfail, ?_⟩
        · simpa using congrArg (List.cons f) hsplit
        · rw [hdb]
          rfl
        · intro i hi
          match i with
          | 0 => simpa [commitFold] using hout
          | Nat.succ j =>
              have hj : j < (runFiles beh rest (Driver.Migrate (beh f) f db).db).applied.length := by
                simpa using hi
              have := hpre j hj
              simpa [commitFold] using this
      · have hrw : r =
            { res := Res.err e'
              db := (Driver.Migrate (beh f) f db).db
              applied := [] } := by
          rw [← hr]
          simp [runFiles, hout]
        subst hrw
        simp only at hres
        have hee : e' = e := by
          cases hres
          rfl
        subst hee
        have hdb := migrate_err_db_eq (beh f) f db e' hout
        refine ⟨f, rest, by simp, by simpa [commitFold] using hdb, ?_, ?_⟩
        · simpa [commitFold, hdb] using hout
        · intro i hi
          simp at hi
      · have hrw : r =
            { res := Res.panics m
              db := (Driver.Migrate (beh f) f db).db
              applied := [] } := by
          rw [← hr]
          simp [runFiles, hout]
        subst hrw
        simp at hres

/-- C3: when `Up` returns an error, the sequencer's list splits into the
applied prefix, the failing record and the untried suffix, in order; the
final database is the committed fold of the applied prefix (those records
remain applied — no cross-script rollback); the failing record's
`Driver.Migrate` returned that very error against the final database; and
every applied record succeeded against the state its predecessors left. -/
theorem up_stops_at_first_failure (env : Env) (e : GoError)
    (h : (Up env).res = Res.err e) :
    ∃ g suf,
      ToLastFrom env.files env.db.version = (Up env).applied ++ g :: suf ∧
      (Up env).db = commitFold env.beh (Up env).applied env.db ∧
      (Driver.Migrate (env.beh g) g ((Up env).db)).res = Res.err e ∧
      ∀ i, (hi : i < (Up env).applied.length) →
        (Driver.Migrate (env.beh ((Up env).applied.get ⟨i, hi⟩))
            ((Up env).applied.get ⟨i, hi⟩)
            (commitFold env.beh ((Up env).applied.take i) env.db)).res = Res.ok := by
  rcases hne : env.newErr with _ | m
  · rcases hre : env.readFilesErr with _ | m
    · rcases hve : env.versionErr with _ | m
      · have hup : Up env =
            { res := (runFiles env.beh (ToLastFrom env.files env.db.version) env.db).res
              db := (runFiles env.beh (ToLastFrom env.files env.db.version) env.db).db
              applied := (runFiles env.beh (ToLastFrom env.files env.db.version) env.db).applied
              closed := true } := by
          simp [Up, initDriverAndReadMigrationFilesAndGetVersion, hne, hre, hve]
        rw [hup] at h ⊢
        exact runFiles_err_decomp env.beh e _ env.db _ rfl h
      · rw [show Up env =
            { res := .panics nilPointerPanic
              db := env.db
              applied := [], closed := true } from by
            simp [Up, initDriverAndReadMigrationFilesAndGetVersion, hne, hre, hve]] at h
        cases h
    · rw [show Up env =
          { res := .panics nilPointerPanic
            db := env.db
            applied := [], closed := true } from by
          simp [Up, initDriverAndReadMigrationFilesAndGetVersion, hne, hre]] at h
      cases h
  · rw [show Up env =
        { res := .panics nilPointerPanic
          db := env.db
          applied := [], closed := false } from by
        simp [Up, initDriverAndReadMigrationFilesAndGetVersion, hne]] at h
    cases h

/-- An environment with two pending Up records in which the second record's
marker insert fails. -/
def envSecondMarkerFails : Env :=
  { newErr := none, readFilesErr := none, versionErr := none
    files := [fileSig1, fileSig2]
    beh := fun f =>
      if f.version = 2 then
        { markerFail := some (SqlError.generic "duplicate key"), execResult := none
          rollbackFail := none }
      else behNone
    db := dbEmpty, interrupts := true, signals := [] }

/-- C3 witness: with two pending Up records whose second fails at the
marker insert, `Up` stops with that error, having applied and committed
exactly the first record. -/
theorem up_stops_at_first_failure_witness :
    (Up envSecondMarkerFails).res = Res.err (GoError.sql (SqlError.generic "duplicate key")) ∧
      (Up envSecondMarkerFails).applied = [fileSig1] ∧
      (Up envSecondMarkerFails).db.markers = [1] ∧
      ∃ g suf,
        ToLastFrom envSecondMarkerFails.files envSecondMarkerFails.db.version
            = (Up envSecondMarkerFails).applied ++ g :: suf ∧
          (Up envSecondMarkerFails).db
            = commitFold envSecondMarkerFails.beh (Up envSecondMarkerFails).applied
                envSecondMarkerFails.db ∧
          (Driver.Migrate (envSecondMarkerFails.beh g) g ((Up envSecondMarkerFails).db)).res
            = Res.err (GoError.sql (SqlError.generic "duplicate key")) :=
  ⟨by decide, by decide, by decide, by
    obtain ⟨g, suf, h1, h2, h3, _⟩ :=
      up_stops_at_first_failure envSecondMarkerFails
        (GoError.sql (SqlError.generic "duplicate key")) (by decide)
    exact ⟨g, suf, h1, h2, h3⟩⟩

end Migrate
